import Mathlib

/-!
Shallow embedding of `src/app.py` (a Streamlit deep-research wizard).

The external LLM API (`client.responses.create`) is modelled as an oracle
`Gateway : GwCall → Except PyErr Response`; the Python `json.loads` parser
is modelled as an oracle `loads : String → Option Json` (it is library
code, not code of this repository).  Each Streamlit script run is one call
of `render`, which receives the session state, the current widget inputs,
and which button (if any) fired, and returns the new session state, the
ordered list of Gateway calls issued during the run, and the uncaught
Python exception, if one was raised.  Mutations that the Python script
performs before an exception is raised are kept in the returned state,
exactly as Streamlit session state keeps them.
-/

namespace DeepResearch

/-- JSON values as produced by the Python `json` module. -/
inductive Json where
  | null
  | bool (b : Bool)
  | num (n : Int)
  | str (s : String)
  | arr (elems : List Json)
  | obj (fields : List (String × Json))

/-- Python exceptions relevant to `src/app.py`: `json.JSONDecodeError`,
`IndexError` from positional indexing, `KeyError` from dict lookup,
`TypeError` from iterating or subscripting a wrongly-typed value, and
errors raised inside the OpenAI client (network, auth, quota). -/
inductive PyErr where
  | jsonDecode
  | indexError
  | keyError
  | typeError
  | apiError (msg : String)
deriving DecidableEq

/-- One content block of a Gateway response output item (`.content[j].text`). -/
structure ContentBlock where
  text : String

/-- One output item of a Gateway response (`.output[i]`), with its `.id`. -/
structure OutputItem where
  id : String
  content : List ContentBlock

/-- A Gateway response: ordered output items plus the response `.id`
used for conversation continuation. -/
structure Response where
  output : List OutputItem
  id : String

/-- A collected search result, as built by `run_search` (src/app.py:66-70):
the dict `{"query": ..., "resp_id": ..., "research_output": ...}`. -/
structure SearchResult where
  query : Json
  resp_id : String
  research_output : String

/-- The logical request sent to the Gateway by each of the six step
functions, identified by the call site and its data-bearing arguments. -/
inductive GwCall where
  | clarify (topic : String)
  | plan (topic : String) (questions : List String) (answers : List String)
      (clarifyId : Option String)
  | search (query : Json) (previousResponseId : Option String)
  | evaluate (goal : Json) (collected : List SearchResult)
  | moreQueries (collected : List SearchResult) (goal : Json)
      (previousResponseId : Option String)
  | report (goal : Json) (collected : List SearchResult)

/-- The Gateway oracle: every `client.responses.create` call either
returns a response or raises. -/
def Gateway : Type := GwCall → Except PyErr Response

/-- Python list indexing `xs[i]`: raises `IndexError` when out of range. -/
def pyGetItem {α : Type} (xs : List α) (i : Nat) : Except PyErr α :=
  match xs.get? i with
  | some x => Except.ok x
  | none => Except.error PyErr.indexError

/-- Python dict subscript `d[k]` on a parsed JSON value: `KeyError` when
the key is absent (last occurrence wins, as in `json.loads`), `TypeError`
when the value is not an object. -/
def Json.get : Json → String → Except PyErr Json
  | Json.obj fields, k =>
    match fields.foldl (fun acc kv => if kv.fst = k then some kv.snd else acc) none with
    | some v => Except.ok v
    | none => Except.error PyErr.keyError
  | _, _ => Except.error PyErr.typeError

/-- Python iteration `for x in v` over a parsed JSON value: a list yields
its elements, a string its characters, a dict its keys; other values
raise `TypeError`. -/
def Json.iterList : Json → Except PyErr (List Json)
  | Json.arr xs => Except.ok xs
  | Json.str s => Except.ok (s.data.map (fun c => Json.str (String.mk [c])))
  | Json.obj fields => Except.ok (fields.map (fun kv => Json.str kv.fst))
  | _ => Except.error PyErr.typeError

/-- Helper for Python `str.split(sep)`: accumulates the current chunk. -/
def splitAux (sep : Char) : List Char → List Char → List String
  | [], acc => [String.mk acc.reverse]
  | c :: cs, acc =>
    if c = sep then String.mk acc.reverse :: splitAux sep cs []
    else splitAux sep cs (c :: acc)

/-- Python `s.split(sep)` for a one-character separator (keeps empty chunks). -/
def pySplitOn (s : String) (sep : Char) : List String :=
  splitAux sep s.data []

/-- Truthiness of `q.strip()`: blank iff every character is whitespace. -/
def pyBlank (s : String) : Bool :=
  s.data.all Char.isWhitespace

/-- Python `str.lower()` on the character list (ASCII letters, as
exercised by the program). -/
def pyLowerL (l : List Char) : List Char :=
  l.map Char.toLower

/-- Python `str.lower()`. -/
def pyLower (s : String) : String :=
  String.mk (pyLowerL s.data)

/-- Does the needle occur at the head of the haystack? -/
def listStarts : List Char → List Char → Bool
  | [], _ => true
  | _ :: _, [] => false
  | a :: as, b :: bs => if a = b then listStarts as bs else false

/-- Does the needle occur contiguously anywhere in the haystack? -/
def occursIn (needle : List Char) : List Char → Bool
  | [] => listStarts needle []
  | b :: bs => listStarts needle (b :: bs) || occursIn needle bs

/-- Python substring membership `needle in hay`. -/
def strContains (hay needle : String) : Bool :=
  occursIn needle.data hay.data

/-- src/app.py:27-39 `get_clarifying_questions`: one Gateway call, split
the reply text on newlines, drop blank lines, return the questions and
the response id. -/
def get_clarifying_questions (gw : Gateway) (topic : String) :
    Except PyErr (List String × String) := do
  let clarify ← gw (GwCall.clarify topic)
  let item ← pyGetItem clarify.output 0
  let block ← pyGetItem item.content 0
  let questions := pySplitOn block.text '\n'
  Except.ok (questions.filter (fun q => !(pyBlank q)), clarify.id)

/-- src/app.py:42-55 `get_goal_and_queries`: one Gateway call continuing
from `clarify_id`, then `json.loads` on the reply text; a parse failure
raises, otherwise the raw parsed value and the response id are returned. -/
def get_goal_and_queries (gw : Gateway) (loads : String → Option Json)
    (topic : String) (questions answers : List String)
    (clarify_id : Option String) : Except PyErr (Json × String) := do
  let goal_and_queries ← gw (GwCall.plan topic questions answers clarify_id)
  let item ← pyGetItem goal_and_queries.output 0
  let block ← pyGetItem item.content 0
  match loads block.text with
  | some plan => Except.ok (plan, goal_and_queries.id)
  | none => Except.error PyErr.jsonDecode

/-- src/app.py:58-70 `run_search`: one tool-enabled Gateway call; reads
the second output item (`output[1]`) and builds the result dict. -/
def run_search (gw : Gateway) (query : Json)
    (previous_response_id : Option String) : Except PyErr SearchResult := do
  let web_search ← gw (GwCall.search query previous_response_id)
  let item ← pyGetItem web_search.output 1
  let block ← pyGetItem item.content 0
  Except.ok { query := query, resp_id := item.id, research_output := block.text }

/-- src/app.py:73-85 `evaluate_responses`: one Gateway call; returns the
pair of the crude sufficiency boolean (`"yes" in text.lower()`) and the
raw reply text. -/
def evaluate_responses (gw : Gateway) (goal : Json)
    (collected : List SearchResult) : Except PyErr (Bool × String) := do
  let review ← gw (GwCall.evaluate goal collected)
  let item ← pyGetItem review.output 0
  let block ← pyGetItem item.content 0
  Except.ok (strContains (pyLower block.text) "yes", block.text)

/-- src/app.py:88-99 `get_more_queries`: one Gateway call continuing from
the planner handle; `json.loads` of the whole reply text is returned. -/
def get_more_queries (gw : Gateway) (loads : String → Option Json)
    (collected : List SearchResult) (goal : Json)
    (previous_response_id : Option String) : Except PyErr Json := do
  let more_searches ← gw (GwCall.moreQueries collected goal previous_response_id)
  let item ← pyGetItem more_searches.output 0
  let block ← pyGetItem item.content 0
  match loads block.text with
  | some v => Except.ok v
  | none => Except.error PyErr.jsonDecode

/-- src/app.py:102-113 `write_final_report`: one Gateway call; the reply
text is the report, returned verbatim. -/
def write_final_report (gw : Gateway) (goal : Json)
    (collected : List SearchResult) : Except PyErr String := do
  let report ← gw (GwCall.report goal collected)
  let item ← pyGetItem report.output 0
  let block ← pyGetItem item.content 0
  Except.ok block.text

/-- The Streamlit session state, with the fields initialized at
src/app.py:119-138.  `goal` and `queries` hold whatever parsed JSON
values the planner assigned (Python stores them untyped). -/
structure SessionState where
  step : Nat
  topic : String
  questions : List String
  answers : List String
  clarify_id : Option String
  goal : Json
  queries : Json
  goal_and_queries_id : Option String
  collected : List SearchResult
  report : String

/-- The defaults installed by the `if key not in st.session_state`
block (src/app.py:119-138). -/
def initState : SessionState :=
  { step := 0, topic := "", questions := [], answers := [],
    clarify_id := none, goal := Json.str "", queries := Json.arr [],
    goal_and_queries_id := none, collected := [], report := "" }

/-- Which button (if any) fired in the current script run.  `advance` is
the "Next: ..." button of the current step, the other three are the
step-3 "Proceed Anyway", step-3 "Generate 5 More Queries" and step-4
"Start New Research" buttons. -/
inductive UserAction where
  | noAction
  | advance
  | proceedAnyway
  | moreQueries
  | restart
deriving DecidableEq

/-- Current widget contents: the step-0 topic text field and the step-1
answer text fields (keyed `answer_i`). -/
structure Inputs where
  topicInput : String
  answerInput : Nat → String

/-- The step-2 loop (src/app.py:180-183): run the searches sequentially,
aborting on the first raised exception; also records the Gateway calls
issued, in order. -/
def runSearches (gw : Gateway) (previous_response_id : Option String) :
    List Json → List GwCall × Except PyErr (List SearchResult)
  | [] => ([], Except.ok [])
  | q :: qs =>
    match run_search gw q previous_response_id with
    | Except.error e =>
      ([GwCall.search q previous_response_id], Except.error e)
    | Except.ok r =>
      match runSearches gw previous_response_id qs with
      | (calls, Except.error e) =>
        (GwCall.search q previous_response_id :: calls, Except.error e)
      | (calls, Except.ok rest) =>
        (GwCall.search q previous_response_id :: calls, Except.ok (r :: rest))

/-- One Streamlit script run (src/app.py:140-228): dispatch on the step
index, process the fired button, and return the new session state, the
Gateway calls issued in order, and the uncaught exception if any.  The
step-4 restart (delete every key, rerun, reinitialize) is collapsed into
returning `initState`. -/
def render (gw : Gateway) (loads : String → Option Json) (inputs : Inputs)
    (act : UserAction) (st : SessionState) :
    SessionState × List GwCall × Option PyErr :=
  if st.step = 0 then
    -- src/app.py:141-149: the topic field is assigned on every render.
    let st1 := { st with topic := inputs.topicInput }
    if st1.topic ≠ "" ∧ act = UserAction.advance then
      match get_clarifying_questions gw st1.topic with
      | Except.error e => (st1, [GwCall.clarify st1.topic], some e)
      | Except.ok (qs, cid) =>
        ({ st1 with questions := qs, clarify_id := some cid, step := 1 },
         [GwCall.clarify st1.topic], none)
    else (st1, [], none)
  else if st.step = 1 then
    -- src/app.py:152-171: one text input per question; the button is
    -- rendered only when all answers are non-empty.
    let answers := (List.range st.questions.length).map inputs.answerInput
    if answers.all (fun a => a != "") ∧ act = UserAction.advance then
      let st1 := { st with answers := answers }
      let call := GwCall.plan st1.topic st1.questions st1.answers st1.clarify_id
      match get_goal_and_queries gw loads st1.topic st1.questions st1.answers
          st1.clarify_id with
      | Except.error e => (st1, [call], some e)
      | Except.ok (plan, plan_id) =>
        match Json.get plan "goal" with
        | Except.error e => (st1, [call], some e)
        | Except.ok g =>
          let st2 := { st1 with goal := g }
          match Json.get plan "queries" with
          | Except.error e => (st2, [call], some e)
          | Except.ok qs =>
            ({ st2 with queries := qs, goal_and_queries_id := some plan_id, step := 2 },
             [call], none)
    else (st, [], none)
  else if st.step = 2 then
    -- src/app.py:174-186: session state is written only after the whole
    -- search loop succeeds.
    if act = UserAction.advance then
      match Json.iterList st.queries with
      | Except.error e => (st, [], some e)
      | Except.ok qs =>
        match runSearches gw st.goal_and_queries_id qs with
        | (calls, Except.error e) => (st, calls, some e)
        | (calls, Except.ok collected) =>
          ({ st with collected := collected, step := 3 }, calls, none)
    else (st, [], none)
  else if st.step = 3 then
    -- src/app.py:189-218: evaluate_responses runs on every render of
    -- step 3, before any button branch.
    let evalCall := GwCall.evaluate st.goal st.collected
    match evaluate_responses gw st.goal st.collected with
    | Except.error e => (st, [evalCall], some e)
    | Except.ok (is_sufficient, _evalText) =>
      if is_sufficient then
        if act = UserAction.advance then
          match write_final_report gw st.goal st.collected with
          | Except.error e =>
            (st, [evalCall, GwCall.report st.goal st.collected], some e)
          | Except.ok rep =>
            ({ st with report := rep, step := 4 },
             [evalCall, GwCall.report st.goal st.collected], none)
        else (st, [evalCall], none)
      else if act = UserAction.proceedAnyway then
        match write_final_report gw st.goal st.collected with
        | Except.error e =>
          (st, [evalCall, GwCall.report st.goal st.collected], some e)
        | Except.ok rep =>
          ({ st with report := rep, step := 4 },
           [evalCall, GwCall.report st.goal st.collected], none)
      else if act = UserAction.moreQueries then
        let mqCall := GwCall.moreQueries st.collected st.goal st.goal_and_queries_id
        match get_more_queries gw loads st.collected st.goal
            st.goal_and_queries_id with
        | Except.error e => (st, [evalCall, mqCall], some e)
        | Except.ok mq =>
          ({ st with queries := mq, step := 2 }, [evalCall, mqCall], none)
      else (st, [evalCall], none)
  else if st.step = 4 then
    -- src/app.py:221-228.
    if act = UserAction.restart then (initState, [], none)
    else (st, [], none)
  else (st, [], none)

/-- A Gateway stub whose every response carries a single output item with
the given text (the shape read by the single-item step functions). -/
def replyGw (t : String) : Gateway :=
  fun _ => Except.ok ⟨[⟨"item0", [⟨t⟩]⟩], "resp0"⟩

/-- A Gateway stub whose every response carries two output items, the
second holding the given text (the shape read by `run_search`). -/
def toolGw (t : String) : Gateway :=
  fun _ => Except.ok ⟨[⟨"sys0", [⟨"tool-call"⟩]⟩, ⟨"res1", [⟨t⟩]⟩], "resp1"⟩

/-- A Gateway stub that always raises (network/auth/quota failure). -/
def gwFail : Gateway :=
  fun _ => Except.error (PyErr.apiError "boom")

/-- A Gateway stub that answers only evaluation calls (with the given
text) and raises on every other call — used to reach the step-3 report
and more-queries calls with a failing Gateway. -/
def gwEvalOnly (t : String) : Gateway :=
  fun c =>
    match c with
    | GwCall.evaluate _ _ => Except.ok ⟨[⟨"item0", [⟨t⟩]⟩], "resp0"⟩
    | _ => Except.error (PyErr.apiError "boom")

/-- A `json.loads` stub on which every text fails to parse. -/
def noLoads : String → Option Json :=
  fun _ => none

/-- A `json.loads` stub mapping the fixed reply text `PLAN2` to a plan
object whose queries array has only two elements. -/
def loadsPlan2 : String → Option Json :=
  fun s =>
    if s = "PLAN2" then
      some (Json.obj [("goal", Json.str "G"),
        ("queries", Json.arr [Json.str "a", Json.str "b"])])
    else none

/-- Concrete widget contents used by witnesses. -/
def inputsDemo : Inputs :=
  ⟨"quantum computing", fun _ => "a1"⟩

/-- The plan object of the spec: goal sentence plus five query strings. -/
def planJson (G q1 q2 q3 q4 q5 : String) : Json :=
  Json.obj [("goal", Json.str G),
    ("queries", Json.arr [Json.str q1, Json.str q2, Json.str q3,
      Json.str q4, Json.str q5])]

/-- A `json.loads` stub mapping the fixed reply text `PLANTEXT` to a
well-formed five-query plan object. -/
def loads5 : String → Option Json :=
  fun s => if s = "PLANTEXT" then some (planJson "G" "a" "b" "c" "d" "e") else none

/-- A step-1 state with one clarifying question and no stored answers. -/
def stStep1 : SessionState :=
  { initState with step := 1, questions := ["q1"] }

/-- A step-1 state whose clarifying-question list is empty. -/
def stStep1Empty : SessionState :=
  { initState with step := 1 }

/-- A step-2 state with two queries and a planner handle. -/
def stStep2 : SessionState :=
  { initState with
      step := 2, goal := Json.str "G",
      queries := Json.arr [Json.str "a", Json.str "b"],
      goal_and_queries_id := some "pid" }

/-- A step-3 state with a non-default topic. -/
def stStep3 : SessionState :=
  { initState with step := 3, topic := "t", goal := Json.str "G" }

/-- A step-4 state with a non-default topic and report. -/
def stStep4 : SessionState :=
  { initState with step := 4, topic := "t", report := "R" }

end DeepResearch

namespace DeepResearch

theorem listStarts_iff (n h : List Char) :
    listStarts n h = true ↔ ∃ r, h = n ++ r := by
  induction n generalizing h with
  | nil => simp [listStarts]
  | cons a as ih =>
    cases h with
    | nil => simp [listStarts]
    | cons b bs =>
      by_cases hab : a = b
      · subst hab
        simp [listStarts, ih]
      · simp [listStarts, hab, Ne.symm hab]

theorem occursIn_iff (n h : List Char) :
    occursIn n h = true ↔ ∃ l r, h = l ++ n ++ r := by
  induction h with
  | nil =>
    simp only [occursIn, listStarts_iff]
    constructor
    · rintro ⟨r, hr⟩
      exact ⟨[], r, by simp [hr]⟩
    · rintro ⟨l, r, hr⟩
      have h0 := hr.symm
      rw [List.append_assoc] at h0
      rcases List.append_eq_nil.mp h0 with ⟨hl, h1⟩
      rcases List.append_eq_nil.mp h1 with ⟨hn, hrr⟩
      exact ⟨r, by simp [hn, hrr]⟩
  | cons b bs ih =>
    simp only [occursIn, Bool.or_eq_true, listStarts_iff, ih]
    constructor
    · rintro (⟨r, hr⟩ | ⟨l, r, hr⟩)
      · exact ⟨[], r, by simpa using hr⟩
      · exact ⟨b :: l, r, by simp [hr]⟩
    · rintro ⟨l, r, hr⟩
      cases l with
      | nil => exact Or.inl ⟨r, by simpa using hr⟩
      | cons x xs =>
        simp only [List.cons_append, List.cons.injEq] at hr
        exact Or.inr ⟨xs, r, hr.2⟩

theorem strContains_iff (hay needle : String) :
    strContains hay needle = true ↔
      ∃ l r, hay.data = l ++ needle.data ++ r := by
  exact occursIn_iff needle.data hay.data

/-- `run_search` stores the query it was given in the result dict. -/
theorem run_search_query (gw : Gateway) (q : Json) (pid : Option String)
    (r : SearchResult) (h : run_search gw q pid = Except.ok r) :
    r.query = q := by
  unfold run_search at h
  cases hgw : gw (GwCall.search q pid) with
  | error e => rw [hgw] at h; simp [Bind.bind, Except.bind] at h
  | ok resp =>
    rw [hgw] at h
    simp only [Bind.bind, Except.bind] at h
    cases h1 : pyGetItem resp.output 1 with
    | error e => rw [h1] at h; simp at h
    | ok item =>
      rw [h1] at h
      dsimp only at h
      cases h2 : pyGetItem item.content 0 with
      | error e => rw [h2] at h; simp at h
      | ok block =>
        rw [h2] at h
        dsimp only at h
        cases h
        rfl

/-- A successful pass of the step-2 loop: one result per query, in
order, each recording its query; one Gateway call per query, in order. -/
theorem runSearches_ok (gw : Gateway) (pid : Option String) :
    ∀ (qs : List Json) (calls : List GwCall) (col : List SearchResult),
      runSearches gw pid qs = (calls, Except.ok col) →
      col.length = qs.length
      ∧ (∀ i : Nat, (col.get? i).map SearchResult.query = qs.get? i)
      ∧ calls = qs.map (fun q => GwCall.search q pid) := by
  intro qs
  induction qs with
  | nil =>
    intro calls col h
    simp only [runSearches] at h
    cases h
    exact ⟨rfl, fun i => by cases i <;> rfl, rfl⟩
  | cons q qs ih =>
    intro calls col h
    simp only [runSearches] at h
    cases hrs : run_search gw q pid with
    | error e => rw [hrs] at h; cases h
    | ok r =>
      rw [hrs] at h
      cases hrec : runSearches gw pid qs with
      | mk cs res =>
        rw [hrec] at h
        cases res with
        | error e => simp at h
        | ok rest =>
          simp only at h
          cases h
          rcases ih cs rest hrec with ⟨hlen, hidx, hcalls⟩
          refine ⟨by simp [hlen], ?_, by simp [hcalls]⟩
          intro i
          cases i with
          | zero => simpa using run_search_query gw q pid r hrs
          | succ j => simpa using hidx j

/-- Generic success path of the step-1 handler: with all answers filled
in and an accepted plan reply, the state gains the answers, the parsed
goal and queries, the planner handle, and moves to step 2. -/
theorem step1_render_ok (gw : Gateway) (loads : String → Option Json)
    (inputs : Inputs) (st : SessionState) (iid rid t : String) (p g qv : Json)
    (h1 : st.step = 1)
    (hall : ((List.range st.questions.length).map inputs.answerInput).all
      (fun a => a != "") = true)
    (hgw : gw (GwCall.plan st.topic st.questions
        ((List.range st.questions.length).map inputs.answerInput) st.clarify_id) =
      Except.ok ⟨[⟨iid, [⟨t⟩]⟩], rid⟩)
    (hld : loads t = some p)
    (hg : Json.get p "goal" = Except.ok g)
    (hqv : Json.get p "queries" = Except.ok qv) :
    render gw loads inputs UserAction.advance st =
      ({ st with
          answers := (List.range st.questions.length).map inputs.answerInput,
          goal := g, queries := qv, goal_and_queries_id := some rid, step := 2 },
       [GwCall.plan st.topic st.questions
          ((List.range st.questions.length).map inputs.answerInput) st.clarify_id],
       none) := by
  have hplan : get_goal_and_queries gw loads st.topic st.questions
      ((List.range st.questions.length).map inputs.answerInput) st.clarify_id =
      Except.ok (p, rid) := by
    simp [get_goal_and_queries, hgw, Bind.bind, Except.bind, pyGetItem, hld]
  simp [render, h1, hall, hplan, hg, hqv]

/-- C1: at step 2, triggering the search transition runs the queries
sequentially in list order (one Gateway call per query, in order) and
produces a collected list of the same length whose entry at each index
records the query at that index. -/
theorem search_runner_collects_in_order
    (gw : Gateway) (loads : String → Option Json) (inputs : Inputs)
    (st : SessionState) (qs : List Json) (calls : List GwCall)
    (col : List SearchResult)
    (h2 : st.step = 2) (hq : st.queries = Json.arr qs)
    (hrun : runSearches gw st.goal_and_queries_id qs = (calls, Except.ok col)) :
    render gw loads inputs UserAction.advance st =
      ({ st with collected := col, step := 3 }, calls, none)
    ∧ col.length = qs.length
    ∧ (∀ i : Nat, (col.get? i).map SearchResult.query = qs.get? i)
    ∧ calls = qs.map (fun q => GwCall.search q st.goal_and_queries_id) := by
  rcases runSearches_ok gw st.goal_and_queries_id qs calls col hrun with
    ⟨hlen, hidx, hcalls⟩
  refine ⟨?_, hlen, hidx, hcalls⟩
  simp [render, h2, hq, Json.iterList, hrun]

theorem search_runner_collects_in_order_witness :
    render (toolGw "found") noLoads inputsDemo UserAction.advance stStep2 =
      ({ stStep2 with
          collected := [⟨Json.str "a", "res1", "found"⟩, ⟨Json.str "b", "res1", "found"⟩],
          step := 3 },
       [GwCall.search (Json.str "a") (some "pid"),
        GwCall.search (Json.str "b") (some "pid")], none) :=
  (search_runner_collects_in_order (toolGw "found") noLoads inputsDemo stStep2
    [Json.str "a", Json.str "b"]
    [GwCall.search (Json.str "a") (some "pid"),
     GwCall.search (Json.str "b") (some "pid")]
    [⟨Json.str "a", "res1", "found"⟩, ⟨Json.str "b", "res1", "found"⟩]
    (by rfl) (by rfl) (by rfl)).1

/-- C2: for any Gateway reply whose text parses as the plan object, the
planner returns exactly that object (with goal G and the five queries in
order) plus the response id; for any reply whose text does not parse, it
raises the JSON decode error and returns no data. -/
theorem planner_parses_plan_or_raises
    (gw : Gateway) (loads : String → Option Json)
    (topic : String) (questions answers : List String) (cid : Option String)
    (iid rid t : String)
    (hgw : gw (GwCall.plan topic questions answers cid) =
      Except.ok ⟨[⟨iid, [⟨t⟩]⟩], rid⟩) :
    (∀ G q1 q2 q3 q4 q5 : String,
      loads t = some (planJson G q1 q2 q3 q4 q5) →
      get_goal_and_queries gw loads topic questions answers cid =
        Except.ok (planJson G q1 q2 q3 q4 q5, rid)
      ∧ Json.get (planJson G q1 q2 q3 q4 q5) "goal" = Except.ok (Json.str G)
      ∧ Json.get (planJson G q1 q2 q3 q4 q5) "queries" =
          Except.ok (Json.arr [Json.str q1, Json.str q2, Json.str q3,
            Json.str q4, Json.str q5])
      ∧ ([Json.str q1, Json.str q2, Json.str q3, Json.str q4,
          Json.str q5] : List Json).length = 5)
    ∧ (loads t = none →
      get_goal_and_queries gw loads topic questions answers cid =
        Except.error PyErr.jsonDecode) := by
  constructor
  · intro G q1 q2 q3 q4 q5 hld
    refine ⟨?_, ?_, ?_, rfl⟩
    · simp [get_goal_and_queries, hgw, Bind.bind, Except.bind, pyGetItem, hld]
    · simp [planJson, Json.get]
    · simp [planJson, Json.get]
  · intro hld
    simp [get_goal_and_queries, hgw, Bind.bind, Except.bind, pyGetItem, hld]

theorem planner_parses_plan_or_raises_witness :
    get_goal_and_queries (replyGw "PLANTEXT") loads5 "topic" [] [] none =
      Except.ok (planJson "G" "a" "b" "c" "d" "e", "resp0")
    ∧ get_goal_and_queries (replyGw "PLANTEXT") noLoads "topic" [] [] none =
      Except.error PyErr.jsonDecode :=
  ⟨((planner_parses_plan_or_raises (replyGw "PLANTEXT") loads5 "topic" [] [] none
      "item0" "resp0" "PLANTEXT" rfl).1 "G" "a" "b" "c" "d" "e" (by simp [loads5])).1,
   (planner_parses_plan_or_raises (replyGw "PLANTEXT") noLoads "topic" [] [] none
      "item0" "resp0" "PLANTEXT" rfl).2 rfl⟩

/-- C3 counterexample: at step 1 with the stored answers empty and the
answer widget holding "a1", a Gateway failure during the planning call
propagates, but the session is NOT left unchanged: the answers field was
assigned before the call (src/app.py:160) and keeps the new value. -/
theorem gateway_error_keeps_new_answers :
    (render gwFail noLoads inputsDemo UserAction.advance stStep1).2.2 =
      some (PyErr.apiError "boom")
    ∧ stStep1.answers = []
    ∧ (render gwFail noLoads inputsDemo UserAction.advance stStep1).1.answers = ["a1"]
    ∧ (render gwFail noLoads inputsDemo UserAction.advance stStep1).1 ≠ stStep1 := by
  refine ⟨by rfl, by rfl, by rfl, ?_⟩
  intro h
  have h2 : (["a1"] : List String) = ([] : List String) :=
    congrArg SessionState.answers h
  exact List.noConfusion h2

/-- C3 amended: for every Gateway call site — the step-0 clarify call,
the step-1 plan call, the step-2 search loop, the step-3 eager
evaluation, the step-3 report call (reached by advance when sufficient
or by proceed-anyway when not), and the step-3 more-queries call — a
Gateway failure propagates uncaught and leaves the step index and
accumulated fields unchanged, except for the assignments the handler
performs before the call: the step-0 handler stores the current topic
input and the step-1 handler stores the current answer inputs first,
so those fields keep their new values. -/
theorem gateway_error_propagates
    (gw : Gateway) (loads : String → Option Json) (inputs : Inputs)
    (st : SessionState) (e : PyErr) :
    (st.step = 0 → inputs.topicInput ≠ "" →
      gw (GwCall.clarify inputs.topicInput) = Except.error e →
      render gw loads inputs UserAction.advance st =
        ({ st with topic := inputs.topicInput },
         [GwCall.clarify inputs.topicInput], some e))
    ∧ (st.step = 1 →
      ((List.range st.questions.length).map inputs.answerInput).all
        (fun a => a != "") = true →
      gw (GwCall.plan st.topic st.questions
          ((List.range st.questions.length).map inputs.answerInput)
          st.clarify_id) = Except.error e →
      render gw loads inputs UserAction.advance st =
        ({ st with
            answers := (List.range st.questions.length).map inputs.answerInput },
         [GwCall.plan st.topic st.questions
            ((List.range st.questions.length).map inputs.answerInput)
            st.clarify_id],
         some e))
    ∧ (∀ qs calls, st.step = 2 → st.queries = Json.arr qs →
        runSearches gw st.goal_and_queries_id qs = (calls, Except.error e) →
        render gw loads inputs UserAction.advance st = (st, calls, some e))
    ∧ (∀ act, st.step = 3 →
        gw (GwCall.evaluate st.goal st.collected) = Except.error e →
        render gw loads inputs act st =
          (st, [GwCall.evaluate st.goal st.collected], some e))
    ∧ (∀ iid rid t, st.step = 3 →
        gw (GwCall.evaluate st.goal st.collected) =
          Except.ok ⟨[⟨iid, [⟨t⟩]⟩], rid⟩ →
        gw (GwCall.report st.goal st.collected) = Except.error e →
        ((strContains (pyLower t) "yes" = true →
          render gw loads inputs UserAction.advance st =
            (st, [GwCall.evaluate st.goal st.collected,
                  GwCall.report st.goal st.collected], some e))
        ∧ (strContains (pyLower t) "yes" = false →
          render gw loads inputs UserAction.proceedAnyway st =
            (st, [GwCall.evaluate st.goal st.collected,
                  GwCall.report st.goal st.collected], some e))))
    ∧ (∀ iid rid t, st.step = 3 →
        gw (GwCall.evaluate st.goal st.collected) =
          Except.ok ⟨[⟨iid, [⟨t⟩]⟩], rid⟩ →
        strContains (pyLower t) "yes" = false →
        gw (GwCall.moreQueries st.collected st.goal st.goal_and_queries_id) =
          Except.error e →
        render gw loads inputs UserAction.moreQueries st =
          (st, [GwCall.evaluate st.goal st.collected,
                GwCall.moreQueries st.collected st.goal st.goal_and_queries_id],
           some e)) := by
  refine ⟨?_, ?_, ?_, ?_, ?_, ?_⟩
  · intro h0 htop hgw
    have hcl : get_clarifying_questions gw inputs.topicInput = Except.error e := by
      simp [get_clarifying_questions, hgw, Bind.bind, Except.bind]
    simp [render, h0, htop, hcl]
  · intro h1 hall hgw
    have hplan : get_goal_and_queries gw loads st.topic st.questions
        ((List.range st.questions.length).map inputs.answerInput)
        st.clarify_id = Except.error e := by
      simp [get_goal_and_queries, hgw, Bind.bind, Except.bind]
    simp [render, h1, hall, hplan]
  · intro qs calls h2 hq hrun
    simp [render, h2, hq, Json.iterList, hrun]
  · intro act h3 hgw
    have hev : evaluate_responses gw st.goal st.collected = Except.error e := by
      simp [evaluate_responses, hgw, Bind.bind, Except.bind]
    simp [render, h3, hev]
  · intro iid rid t h3 hev hrep
    have hev2 : evaluate_responses gw st.goal st.collected =
        Except.ok (strContains (pyLower t) "yes", t) := by
      simp [evaluate_responses, hev, Bind.bind, Except.bind, pyGetItem]
    have hw : write_final_report gw st.goal st.collected = Except.error e := by
      simp [write_final_report, hrep, Bind.bind, Except.bind]
    exact ⟨fun hyes => by simp [render, h3, hev2, hyes, hw],
           fun hno => by simp [render, h3, hev2, hno, hw]⟩
  · intro iid rid t h3 hev hno hmq
    have hev2 : evaluate_responses gw st.goal st.collected =
        Except.ok (strContains (pyLower t) "yes", t) := by
      simp [evaluate_responses, hev, Bind.bind, Except.bind, pyGetItem]
    have hm : get_more_queries gw loads st.collected st.goal
        st.goal_and_queries_id = Except.error e := by
      simp [get_more_queries, hmq, Bind.bind, Except.bind]
    simp [render, h3, hev2, hno, hm]

theorem gateway_error_propagates_witness :
    render gwFail noLoads inputsDemo UserAction.advance initState =
      ({ initState with topic := "quantum computing" },
       [GwCall.clarify "quantum computing"], some (PyErr.apiError "boom"))
    ∧ render gwFail noLoads inputsDemo UserAction.advance stStep1 =
      ({ stStep1 with answers := ["a1"] },
       [GwCall.plan "" ["q1"] ["a1"] none], some (PyErr.apiError "boom"))
    ∧ render gwFail noLoads inputsDemo UserAction.advance stStep2 =
      (stStep2, [GwCall.search (Json.str "a") (some "pid")],
       some (PyErr.apiError "boom"))
    ∧ render gwFail noLoads inputsDemo UserAction.noAction stStep3 =
      (stStep3, [GwCall.evaluate (Json.str "G") []],
       some (PyErr.apiError "boom"))
    ∧ render (gwEvalOnly "Yes") noLoads inputsDemo UserAction.advance stStep3 =
      (stStep3, [GwCall.evaluate (Json.str "G") [],
                 GwCall.report (Json.str "G") []], some (PyErr.apiError "boom"))
    ∧ render (gwEvalOnly "No") noLoads inputsDemo UserAction.proceedAnyway stStep3 =
      (stStep3, [GwCall.evaluate (Json.str "G") [],
                 GwCall.report (Json.str "G") []], some (PyErr.apiError "boom"))
    ∧ render (gwEvalOnly "No") noLoads inputsDemo UserAction.moreQueries stStep3 =
      (stStep3, [GwCall.evaluate (Json.str "G") [],
                 GwCall.moreQueries [] (Json.str "G") none],
       some (PyErr.apiError "boom")) :=
  ⟨(gateway_error_propagates gwFail noLoads inputsDemo initState
      (PyErr.apiError "boom")).1 (by rfl) (by decide) (by rfl),
   (gateway_error_propagates gwFail noLoads inputsDemo stStep1
      (PyErr.apiError "boom")).2.1 (by rfl) (by rfl) (by rfl),
   (gateway_error_propagates gwFail noLoads inputsDemo stStep2
      (PyErr.apiError "boom")).2.2.1 [Json.str "a", Json.str "b"]
      [GwCall.search (Json.str "a") (some "pid")] (by rfl) (by rfl) (by rfl),
   (gateway_error_propagates gwFail noLoads inputsDemo stStep3
      (PyErr.apiError "boom")).2.2.2.1 UserAction.noAction (by rfl) (by rfl),
   ((gateway_error_propagates (gwEvalOnly "Yes") noLoads inputsDemo stStep3
      (PyErr.apiError "boom")).2.2.2.2.1 "item0" "resp0" "Yes"
      (by rfl) (by rfl) (by rfl)).1 (by decide),
   ((gateway_error_propagates (gwEvalOnly "No") noLoads inputsDemo stStep3
      (PyErr.apiError "boom")).2.2.2.2.1 "item0" "resp0" "No"
      (by rfl) (by rfl) (by rfl)).2 (by decide),
   (gateway_error_propagates (gwEvalOnly "No") noLoads inputsDemo stStep3
      (PyErr.apiError "boom")).2.2.2.2.2 "item0" "resp0" "No"
      (by rfl) (by rfl) (by decide) (by rfl)⟩

/-- C4 counterexample: at step 3 the restart action is not available:
processing it leaves the state untouched (step stays 3, fields are not
cleared), refuting availability of restart at every step. -/
theorem restart_not_available_at_step3 :
    (render (replyGw "No") noLoads inputsDemo UserAction.restart stStep3).1 = stStep3
    ∧ stStep3.step = 3
    ∧ stStep3 ≠ initState
    ∧ (render (replyGw "No") noLoads inputsDemo UserAction.restart stStep3).1.step ≠ 0 := by
  refine ⟨by rfl, by rfl, ?_, by decide⟩
  intro h
  exact absurd (congrArg SessionState.topic h) (by decide)

/-- C4 amended: the restart action exists only at step 4; there it
deletes every session field, reinitializing them to the empty defaults
with step index 0, whatever the rest of the state holds. -/
theorem restart_at_step4_clears
    (gw : Gateway) (loads : String → Option Json) (inputs : Inputs)
    (st : SessionState) (h4 : st.step = 4) :
    render gw loads inputs UserAction.restart st = (initState, [], none) := by
  simp [render, h4]

theorem restart_at_step4_clears_witness :
    render (replyGw "x") noLoads inputsDemo UserAction.restart stStep4 =
      (initState, [], none) :=
  restart_at_step4_clears (replyGw "x") noLoads inputsDemo stStep4 (by rfl)

/-- C5 counterexample: the planner accepts a reply whose queries array
has two elements (src/app.py performs no length check); immediately
after the planning transition completes, the queries field has length 2,
not 5. -/
theorem planning_accepts_short_queries :
    (render (replyGw "PLAN2") loadsPlan2 inputsDemo UserAction.advance stStep1).2.2 = none
    ∧ (render (replyGw "PLAN2") loadsPlan2 inputsDemo UserAction.advance stStep1).1.step = 2
    ∧ (render (replyGw "PLAN2") loadsPlan2 inputsDemo UserAction.advance stStep1).1.queries =
        Json.arr [Json.str "a", Json.str "b"]
    ∧ ¬ ∃ l, (render (replyGw "PLAN2") loadsPlan2 inputsDemo UserAction.advance stStep1).1.queries =
          Json.arr l ∧ l.length = 5 := by
  refine ⟨by rfl, by rfl, by rfl, ?_⟩
  rintro ⟨l, hl, hlen⟩
  have h2 : Json.arr [Json.str "a", Json.str "b"] = Json.arr l := hl
  injection h2 with h3
  rw [← h3] at hlen
  exact absurd hlen (by decide)

/-- C5 amended: immediately after the planning transition, the queries
field equals exactly the queries value of the accepted parsed reply — it
has length 5 precisely for replies whose queries array has 5 elements;
no length-5 check is enforced by the code. -/
theorem planning_sets_queries_to_parsed
    (gw : Gateway) (loads : String → Option Json) (inputs : Inputs)
    (st : SessionState) (iid rid t : String) (p g qv : Json)
    (h1 : st.step = 1)
    (hall : ((List.range st.questions.length).map inputs.answerInput).all
      (fun a => a != "") = true)
    (hgw : gw (GwCall.plan st.topic st.questions
        ((List.range st.questions.length).map inputs.answerInput) st.clarify_id) =
      Except.ok ⟨[⟨iid, [⟨t⟩]⟩], rid⟩)
    (hld : loads t = some p)
    (hg : Json.get p "goal" = Except.ok g)
    (hqv : Json.get p "queries" = Except.ok qv) :
    (render gw loads inputs UserAction.advance st).1.queries = qv
    ∧ (render gw loads inputs UserAction.advance st).1.step = 2
    ∧ (render gw loads inputs UserAction.advance st).2.2 = none := by
  rw [step1_render_ok gw loads inputs st iid rid t p g qv h1 hall hgw hld hg hqv]
  exact ⟨rfl, rfl, rfl⟩

theorem planning_sets_queries_to_parsed_witness :
    (render (replyGw "PLANTEXT") loads5 inputsDemo UserAction.advance stStep1).1.queries =
      Json.arr [Json.str "a", Json.str "b", Json.str "c", Json.str "d", Json.str "e"]
    ∧ (render (replyGw "PLANTEXT") loads5 inputsDemo UserAction.advance stStep1).1.step = 2
    ∧ (render (replyGw "PLANTEXT") loads5 inputsDemo UserAction.advance stStep1).2.2 = none :=
  planning_sets_queries_to_parsed (replyGw "PLANTEXT") loads5 inputsDemo stStep1
    "item0" "resp0" "PLANTEXT" (planJson "G" "a" "b" "c" "d" "e") (Json.str "G")
    (Json.arr [Json.str "a", Json.str "b", Json.str "c", Json.str "d", Json.str "e"])
    (by rfl) (by rfl) (by rfl) (by simp [loads5]) (by rfl) (by rfl)

/-- C6: at step 3 with an insufficient evaluation, the "more queries"
action stores exactly the newly parsed reply value in the queries field
and moves back to step 2; the previous queries value contributes nothing
(the result is the same for every prior queries value). -/
theorem more_queries_replaces
    (gw : Gateway) (loads : String → Option Json) (inputs : Inputs)
    (st : SessionState) (iid rid t iid2 rid2 t2 : String) (j : Json)
    (h3 : st.step = 3)
    (hev : gw (GwCall.evaluate st.goal st.collected) =
      Except.ok ⟨[⟨iid, [⟨t⟩]⟩], rid⟩)
    (hno : strContains (pyLower t) "yes" = false)
    (hmq : gw (GwCall.moreQueries st.collected st.goal st.goal_and_queries_id) =
      Except.ok ⟨[⟨iid2, [⟨t2⟩]⟩], rid2⟩)
    (hld : loads t2 = some j) :
    ∀ q0 : Json,
      render gw loads inputs UserAction.moreQueries { st with queries := q0 } =
        ({ st with queries := j, step := 2 },
         [GwCall.evaluate st.goal st.collected,
          GwCall.moreQueries st.collected st.goal st.goal_and_queries_id],
         none) := by
  intro q0
  have hev2 : evaluate_responses gw st.goal st.collected =
      Except.ok (strContains (pyLower t) "yes", t) := by
    simp [evaluate_responses, hev, Bind.bind, Except.bind, pyGetItem]
  have hmq2 : get_more_queries gw loads st.collected st.goal
      st.goal_and_queries_id = Except.ok j := by
    simp [get_more_queries, hmq, Bind.bind, Except.bind, pyGetItem, hld]
  simp [render, h3, hev2, hno, hmq2]

theorem more_queries_replaces_witness :
    render (replyGw "PLAN2") loadsPlan2 inputsDemo UserAction.moreQueries
        { stStep3 with queries := Json.arr [Json.str "old1", Json.str "old2"] } =
      ({ stStep3 with
          queries := Json.obj [("goal", Json.str "G"),
            ("queries", Json.arr [Json.str "a", Json.str "b"])],
          step := 2 },
       [GwCall.evaluate (Json.str "G") [],
        GwCall.moreQueries [] (Json.str "G") none], none) :=
  more_queries_replaces (replyGw "PLAN2") loadsPlan2 inputsDemo stStep3
    "item0" "resp0" "PLAN2" "item0" "resp0" "PLAN2"
    (Json.obj [("goal", Json.str "G"),
      ("queries", Json.arr [Json.str "a", Json.str "b"])])
    (by rfl) (by rfl) (by decide) (by rfl) (by simp [loadsPlan2])
    (Json.arr [Json.str "old1", Json.str "old2"])

theorem pyLowerL_append (a b : List Char) :
    pyLowerL (a ++ b) = pyLowerL a ++ pyLowerL b := by
  simp [pyLowerL]

/-- Lowering maps any occurrence of a "yes"-spelling to the lowercase
substring, so the heuristic fires on it wherever it sits in the text. -/
theorem strContains_yes_of_mid (p mid s : String)
    (hmid : pyLowerL mid.data = "yes".data) :
    strContains (pyLower (p ++ mid ++ s)) "yes" = true := by
  rw [strContains_iff]
  refine ⟨pyLowerL p.data, pyLowerL s.data, ?_⟩
  show pyLowerL ((p ++ mid ++ s) : String).data =
    pyLowerL p.data ++ "yes".data ++ pyLowerL s.data
  simp only [String.data_append, pyLowerL_append, hmid]

/-- C7: the sufficiency evaluator returns the pair of the boolean
`"yes" in text.lower()` and the raw reply text; that boolean is true
exactly when "yes" occurs as a contiguous substring of the lowered text,
so any reply containing "Yes", "yes" or "YES" anywhere yields true, and
the reply "No further data needed" yields false. -/
theorem sufficiency_substring_heuristic
    (gw : Gateway) (goal : Json) (collected : List SearchResult)
    (iid rid t : String)
    (hgw : gw (GwCall.evaluate goal collected) =
      Except.ok ⟨[⟨iid, [⟨t⟩]⟩], rid⟩) :
    evaluate_responses gw goal collected =
      Except.ok (strContains (pyLower t) "yes", t)
    ∧ (strContains (pyLower t) "yes" = true ↔
        ∃ l r, (pyLower t).data = l ++ "yes".data ++ r)
    ∧ (∀ p s : String, strContains (pyLower (p ++ "Yes" ++ s)) "yes" = true)
    ∧ (∀ p s : String, strContains (pyLower (p ++ "yes" ++ s)) "yes" = true)
    ∧ (∀ p s : String, strContains (pyLower (p ++ "YES" ++ s)) "yes" = true)
    ∧ strContains (pyLower "No further data needed") "yes" = false := by
  refine ⟨?_, strContains_iff _ _,
    fun p s => strContains_yes_of_mid p "Yes" s (by decide),
    fun p s => strContains_yes_of_mid p "yes" s (by decide),
    fun p s => strContains_yes_of_mid p "YES" s (by decide),
    by decide⟩
  simp [evaluate_responses, hgw, Bind.bind, Except.bind, pyGetItem]

theorem sufficiency_substring_heuristic_witness :
    evaluate_responses (replyGw "All good, Yes.") (Json.str "G") [] =
      Except.ok (strContains (pyLower "All good, Yes.") "yes", "All good, Yes.") :=
  (sufficiency_substring_heuristic (replyGw "All good, Yes.") (Json.str "G") []
    "item0" "resp0" "All good, Yes." rfl).1

/-- C8: every render of a step-3 state issues the evaluation Gateway
call for the current goal and collected results first, whatever user
action (or none) is being processed — evaluation is eager on render,
never deferred to a trigger. -/
theorem step3_evaluates_on_every_render
    (gw : Gateway) (loads : String → Option Json) (inputs : Inputs)
    (act : UserAction) (st : SessionState) (h3 : st.step = 3) :
    (render gw loads inputs act st).2.1.head? =
      some (GwCall.evaluate st.goal st.collected) := by
  cases hev : evaluate_responses gw st.goal st.collected with
  | error e => simp [render, h3, hev]
  | ok v =>
    rcases v with ⟨b, t⟩
    cases b with
    | false =>
      cases act with
      | noAction => simp [render, h3, hev]
      | advance => simp [render, h3, hev]
      | proceedAnyway =>
        cases hw : write_final_report gw st.goal st.collected with
        | error e => simp [render, h3, hev, hw]
        | ok rep => simp [render, h3, hev, hw]
      | moreQueries =>
        cases hm : get_more_queries gw loads st.collected st.goal
            st.goal_and_queries_id with
        | error e => simp [render, h3, hev, hm]
        | ok mq => simp [render, h3, hev, hm]
      | restart => simp [render, h3, hev]
    | true =>
      cases act with
      | noAction => simp [render, h3, hev]
      | advance =>
        cases hw : write_final_report gw st.goal st.collected with
        | error e => simp [render, h3, hev, hw]
        | ok rep => simp [render, h3, hev, hw]
      | proceedAnyway => simp [render, h3, hev]
      | moreQueries => simp [render, h3, hev]
      | restart => simp [render, h3, hev]

theorem step3_evaluates_on_every_render_witness :
    (render (replyGw "No") noLoads inputsDemo UserAction.noAction stStep3).2.1.head? =
      some (GwCall.evaluate (Json.str "G") []) :=
  step3_evaluates_on_every_render (replyGw "No") noLoads inputsDemo
    UserAction.noAction stStep3 (by rfl)

/-- C9: a reply containing "yes" only inside other words ("Eyes",
"yesterday" — no standalone word "yes") still makes the sufficiency
evaluator return true: the check is a plain substring test on the
lowercased text, not a word or token match. -/
theorem substring_matches_inside_word :
    evaluate_responses (replyGw "Eyes examined yesterday") (Json.str "G") [] =
      Except.ok (true, "Eyes examined yesterday")
    ∧ (pySplitOn (pyLower "Eyes examined yesterday") ' ').contains "yes" = false :=
  ⟨by rfl, by decide⟩

/-- C10: at step 1 with an empty clarifying-question list, the guard
all(answers) holds vacuously for the empty answer list, and the advance
action invokes the planner with zero questions and zero answers — no
non-emptiness of the question list is enforced. -/
theorem empty_questions_advance
    (gw : Gateway) (loads : String → Option Json) (inputs : Inputs)
    (st : SessionState) (h1 : st.step = 1) (hq : st.questions = []) :
    ((List.range st.questions.length).map inputs.answerInput).all
      (fun a => a != "") = true
    ∧ (render gw loads inputs UserAction.advance st).2.1 =
        [GwCall.plan st.topic [] [] st.clarify_id] := by
  have ha : (List.range st.questions.length).map inputs.answerInput = [] := by
    simp [hq]
  refine ⟨by simp [ha], ?_⟩
  cases hg : get_goal_and_queries gw loads st.topic [] [] st.clarify_id with
  | error e => simp [render, h1, hq, ha, hg]
  | ok v =>
    rcases v with ⟨plan, pid⟩
    cases hgo : Json.get plan "goal" with
    | error e => simp [render, h1, hq, ha, hg, hgo]
    | ok g =>
      cases hqq : Json.get plan "queries" with
      | error e => simp [render, h1, hq, ha, hg, hgo, hqq]
      | ok qv => simp [render, h1, hq, ha, hg, hgo, hqq]

theorem empty_questions_advance_witness :
    (render (replyGw "x") noLoads inputsDemo UserAction.advance stStep1Empty).2.1 =
      [GwCall.plan "" [] [] none] :=
  (empty_questions_advance (replyGw "x") noLoads inputsDemo stStep1Empty
    (by rfl) (by rfl)).2

end DeepResearch
